import Mathlib

/-!
Verification of the DLRover flash-checkpoint engine
(`dlrover/trainer/torch/flash_checkpoint/engine.py`).

The engine stages a training state dict into a per-shard shared-memory
region under a cross-process lock, guarded by collective agreement
checks across the training ranks.  We embed the engine's state and its
operations as pure Lean functions: the cross-process lock becomes a
boolean `lockFree` field (a non-blocking `acquire` succeeds exactly when
the lock is free), the shared-memory region becomes an
`Option (config × payload)` field, and the collective primitives take
the other participants' contributions as an explicit argument
(`none` models an unconfigured process group).  Each call to
`save_state_dict_to_memory` additionally returns the ordered list of
lock/region/barrier events it performed, so ordering properties can be
stated about the event trace.
-/

namespace FlashCkpt

/-- Modelled from the spec: the engine's reserved metadata key
(`DLROVER_CKPT_CONFIG_KEY`, defined in the checkpoint-saver module which
is outside the engine source).  Only its identity matters: the engine
checks membership of this key in the caller's state dict. -/
def DLROVER_CKPT_CONFIG_KEY : String := "DLROVER_CKPT_CONFIG"

/-- Modelled from the spec: `SingleFileCheckpointConfig` / the
`ShardConfig` record `{step, path}` identifying one checkpoint attempt
(§3 of the design).  `step = 0` means "no valid checkpoint staged". -/
structure SingleFileCheckpointConfig where
  step : Nat
  path : String
deriving Repr, DecidableEq

/-- A caller-supplied state dict: an association list from string keys to
opaque payload values (the engine only inspects the keys). -/
abbrev StateDict := List (String × Nat)

/-- `key ∈ state_dict` as the engine's membership test. -/
def StateDict.hasKey (sd : StateDict) (k : String) : Bool :=
  sd.any (fun kv => kv.1 = k)

/-- Modelled from the spec: the Shared Staging Region handle
(`SharedMemoryHandler`, outside the engine source).  It holds at most one
checkpoint generation: a config header plus the serialized payload
(§4.2: `save` overwrites header and payload as a single logical unit). -/
structure SharedMemoryHandler where
  region : Option (SingleFileCheckpointConfig × StateDict)
deriving Repr, DecidableEq

/-- Modelled from the spec: reading the header; returns the given default
config (whose `step` is 0) when nothing has been staged yet. -/
def SharedMemoryHandler.get_checkpoint_config (h : SharedMemoryHandler)
    (default_config : SingleFileCheckpointConfig) : SingleFileCheckpointConfig :=
  match h.region with
  | some (c, _) => c
  | none => default_config

/-- Modelled from the spec: staging a state dict plus its config header
into the region as a single logical unit. -/
def SharedMemoryHandler.save_state_dict (h : SharedMemoryHandler)
    (state_dict : StateDict) (conf : SingleFileCheckpointConfig) : SharedMemoryHandler :=
  { h with region := some (conf, state_dict) }

/-- Modelled from the spec: loading the staged payload. -/
def SharedMemoryHandler.load_state_dict (h : SharedMemoryHandler) : StateDict :=
  match h.region with
  | some (_, sd) => sd
  | none => []

/-- `check_all_rank_ready(group, ready)` (engine.py lines 36–45): with no
group configured it returns the local vote; otherwise each rank
contributes `0` if its vote is true and `1` otherwise, the contributions
are sum-reduced across the group (`dist.all_reduce`), and the result is
`true` iff the reduced sum is `0`.  `group = some others` carries the
contributions of the other participants; this rank contributes `ready`. -/
def check_all_rank_ready (group : Option (List Bool)) (ready : Bool) : Bool :=
  match group with
  | none => ready
  | some others =>
      (if ready then 0 else 1) + (others.map (fun v => if v then 0 else 1)).sum = 0

/-- Base-2 logarithm (floor) computed by structural recursion on a fuel
argument, so that it reduces inside the kernel. -/
def log2Fuel : Nat → Nat → Nat
  | 0, _ => 0
  | fuel + 1, n => if 2 ≤ n then log2Fuel fuel (n / 2) + 1 else 0

/-- Round a natural number to the nearest value exactly representable as
an IEEE-754 binary32 (float32), ties to even — the conversion performed
by `torch.Tensor([float(step)])` in engine.py line 54, whose default
dtype is float32.  Exact below `2 ^ 24`; valid for all inputs below
`2 ^ 128` (no overflow), which covers every `u64` step. -/
def floatOfNat32 (n : Nat) : Nat :=
  if n < 2 ^ 24 then n
  else
    let e := log2Fuel 128 n
    let ulp := 2 ^ (e - 23)
    let q := n / ulp
    let r := n % ulp
    if 2 * r < ulp then q * ulp
    else if ulp < 2 * r then (q + 1) * ulp
    else if q % 2 = 0 then q * ulp
    else (q + 1) * ulp

/-- `verify_all_rank_step_consistent(group, step)` (engine.py lines
48–61): with no group configured it returns true unconditionally;
otherwise every rank's step is converted to a float32 tensor,
all-gathered, and each gathered value is compared (`torch.equal`) with
the first.  `group = some others` carries the other participants' steps;
this rank's own gathered value (`floatOfNat32 step`) stands first in the
gathered list, so "equal to the first" is "equal to `floatOfNat32 step`". -/
def verify_all_rank_step_consistent (group : Option (List Nat)) (step : Nat) : Bool :=
  match group with
  | none => true
  | some others =>
      let first := floatOfNat32 step
      (others.map floatOfNat32).all (fun x => x = first)

/-- The per-process engine state relevant to the save/load protocol:
rank identities, the shard lock (free / held by this rank), the staging
region handle, the last successfully cached step and whether the
distributed backend is initialized. -/
structure EngineState where
  rank : Nat
  localRank : Nat
  localShardId : Nat
  lockFree : Bool
  heldBySelf : Bool
  shmHandler : SharedMemoryHandler
  cachedStep : Nat
  distInit : Bool
deriving Repr, DecidableEq

/-- The observable actions `save_state_dict_to_memory` performs, in
order: the non-blocking lock acquisition attempt (with its result), a
lock release, a write of a step into the staging region (recording
whether this rank holds the lock at that moment), and the collective
barrier. -/
inductive SaveEvent where
  | tryAcquire (ok : Bool)
  | releaseLock
  | writeRegion (step : Nat) (holdingLock : Bool)
  | barrier
deriving Repr, DecidableEq

/-- How a call to `save_state_dict_to_memory` ended. -/
inductive SaveOutcome where
  | skippedNotWriter
  | invalidState
  | abandoned
  | written
deriving Repr, DecidableEq

/-- `save_state_dict_to_memory(state_dict, conf)` (engine.py lines
190–219).  Returns the new engine state, the outcome (with a raised
`ValueError` rendered as `SaveOutcome.invalidState`), and the ordered
event trace.  `group` carries the other group members' lock-acquisition
votes (`none`: no saver group configured). -/
def save_state_dict_to_memory (st : EngineState) (group : Option (List Bool))
    (state_dict : StateDict) (conf : SingleFileCheckpointConfig) :
    EngineState × SaveOutcome × List SaveEvent :=
  if st.localRank ≠ st.localShardId then
    (st, SaveOutcome.skippedNotWriter, [])
  else if state_dict.hasKey DLROVER_CKPT_CONFIG_KEY then
    (st, SaveOutcome.invalidState, [])
  else
    let acquired := st.lockFree
    let st1 := if acquired then { st with lockFree := false, heldBySelf := true } else st
    let all_rank_ready := check_all_rank_ready group acquired
    if ¬ all_rank_ready then
      if acquired then
        ({ st1 with lockFree := true, heldBySelf := false }, SaveOutcome.abandoned,
          [SaveEvent.tryAcquire acquired, SaveEvent.releaseLock])
      else
        (st1, SaveOutcome.abandoned, [SaveEvent.tryAcquire acquired])
    else
      let st2 := { st1 with shmHandler := st1.shmHandler.save_state_dict state_dict conf }
      let writeEv := SaveEvent.writeRegion conf.step st2.heldBySelf
      let st3 :=
        if acquired then { st2 with lockFree := true, heldBySelf := false } else st2
      let relEvs := if acquired then [SaveEvent.releaseLock] else []
      let st4 := { st3 with cachedStep := conf.step }
      let barEvs := if st4.distInit then [SaveEvent.barrier] else []
      (st4, SaveOutcome.written,
        [SaveEvent.tryAcquire acquired, writeEv] ++ relEvs ++ barEvs)

/-- `save_to_memory(step, state_dict, path)` (engine.py lines 168–188):
builds the `{step, path}` config and delegates to
`save_state_dict_to_memory`. -/
def save_to_memory (st : EngineState) (group : Option (List Bool))
    (step : Nat) (state_dict : StateDict) (path : String) :
    EngineState × SaveOutcome × List SaveEvent :=
  save_state_dict_to_memory st group state_dict ⟨step, path⟩

/-- `get_state_dict_from_memory()` (engine.py lines 221–235): read the
header (step 0 default when nothing staged), return empty on step 0,
return empty when the cross-rank step-consistency check fails, otherwise
load the staged payload.  `group` carries the other group members'
staged steps (`none`: no saver group configured). -/
def get_state_dict_from_memory (st : EngineState) (group : Option (List Nat)) :
    StateDict :=
  let default_config : SingleFileCheckpointConfig := ⟨0, ""⟩
  let config := st.shmHandler.get_checkpoint_config default_config
  if config.step = 0 then []
  else if verify_all_rank_step_consistent group config.step then
    st.shmHandler.load_state_dict
  else []

/-- The bootstrap action `_notify_agent_to_create_saver` performs
(engine.py lines 130–156): nothing (non-zero local rank), a force
release of the shared lock (restart), or sending the `SaverClassMeta`
bootstrap descriptor with its init arguments on the factory queue. -/
inductive NotifyAction where
  | noAction
  | releasedLock
  | sentClassMeta (checkpointDir : String) (localShardNum globalShardNum : Nat)
deriving Repr, DecidableEq

/-- `_notify_agent_to_create_saver()` (engine.py lines 130–156). -/
def notify_agent_to_create_saver (localRank restartCount : Nat)
    (checkpointDir : String) (localShardNum globalShardNum : Nat) : NotifyAction :=
  if localRank ≠ 0 then NotifyAction.noAction
  else if 0 < restartCount then NotifyAction.releasedLock
  else NotifyAction.sentClassMeta checkpointDir localShardNum globalShardNum

/-- Whether a bootstrap action sent the `SaverClassMeta` descriptor. -/
def NotifyAction.isSentMeta : NotifyAction → Bool
  | NotifyAction.sentClassMeta _ _ _ => true
  | _ => false

/-- The messages and lock actions an engine construction emits. -/
inductive InitEvent where
  | sentClassMeta
  | releasedLock
  | putUpdateShard (globalShardNum : Nat)
deriving Repr, DecidableEq

/-- `_update_saver_config()` (engine.py lines 158–166): a local-rank-0
process puts an `UPDATE_SHARD` event carrying the global shard count on
its event queue.  The queue exists only when it was created at
construction (engine.py lines 103–109 create it only for global rank 0);
calling `put` on the absent queue (`None`) raises, modelled as an error. -/
def update_saver_config (localRank : Nat) (hasEventQueue : Bool)
    (globalShardNum : Nat) : Except String (List InitEvent) :=
  if localRank = 0 then
    if hasEventQueue then Except.ok [InitEvent.putUpdateShard globalShardNum]
    else Except.error "AttributeError: NoneType object has no attribute put"
  else Except.ok []

/-- The event-emitting tail of `CheckpointEngine.__init__` (engine.py
lines 103–121): the event queue is created only when the global rank is
0; then `_notify_agent_to_create_saver` runs, then `_update_saver_config`. -/
def engineInitEvents (rank localRank restartCount : Nat)
    (checkpointDir : String) (localShardNum globalShardNum : Nat) :
    Except String (List InitEvent) :=
  let hasEventQueue := rank = 0
  let notifyEvents :=
    match notify_agent_to_create_saver localRank restartCount
        checkpointDir localShardNum globalShardNum with
    | NotifyAction.noAction => ([] : List InitEvent)
    | NotifyAction.releasedLock => [InitEvent.releasedLock]
    | NotifyAction.sentClassMeta _ _ _ => [InitEvent.sentClassMeta]
  match update_saver_config localRank hasEventQueue globalShardNum with
  | Except.ok evs => Except.ok (notifyEvents ++ evs)
  | Except.error e => Except.error e

/-! ### Helper lemmas -/

/-- The sum of the `{0 if vote true else 1}` indicators over a vote list
vanishes exactly when every vote is true. -/
theorem voteSum_eq_zero_iff (l : List Bool) :
    ((l.map (fun v => if v then 0 else 1)).sum = 0) ↔ ∀ v ∈ l, v = true := by
  induction l with
  | nil => simp
  | cons x xs ih => cases x <;> simp [ih]

/-- Characterization of the grouped agreement check: it passes exactly
when this rank and every other participant voted true. -/
theorem check_all_rank_ready_some_iff (others : List Bool) (r : Bool) :
    check_all_rank_ready (some others) r = true ↔
      (r = true ∧ ∀ v ∈ others, v = true) := by
  cases r <;>
    simp [check_all_rank_ready, Nat.add_eq_zero, voteSum_eq_zero_iff]

/-- A rank that failed to acquire can never see the agreement check pass. -/
theorem check_all_rank_ready_false (g : Option (List Bool)) :
    check_all_rank_ready g false = false := by
  cases g with
  | none => rfl
  | some others =>
      rw [← Bool.not_eq_true, check_all_rank_ready_some_iff]
      simp

/-! ### Claims -/

/-- Claim C3: `check_all_rank_ready(group, ready)` returns the local vote
unchanged when no group is configured; with a group it sum-reduces the
per-rank indicators `{0 if vote true else 1}` and returns true iff the
reduced sum is 0, iff every participant voted true. -/
theorem claim_C3_check_all_rank_ready :
    (∀ r : Bool, check_all_rank_ready none r = r) ∧
    (∀ (others : List Bool) (r : Bool),
      check_all_rank_ready (some others) r = true ↔
        (r = true ∧ ∀ v ∈ others, v = true)) := by
  refine ⟨fun r => rfl, fun others r => ?_⟩
  exact check_all_rank_ready_some_iff others r

/-- Witness for C3 at a concrete vote vector. -/
theorem claim_C3_witness :
    check_all_rank_ready (some [true, true]) true = true :=
  (claim_C3_check_all_rank_ready.2 [true, true] true).mpr (by decide)

/-- Claim C7, counterexample: two ranks holding the distinct numeric
steps `2 ^ 24` and `2 ^ 24 + 1` are reported consistent, because both
round to the same float32 tensor value before the gather-and-compare. -/
theorem claim_C7_counterexample :
    (16777216 : Nat) ≠ 16777217 ∧
    verify_all_rank_step_consistent (some [16777217]) 16777216 = true := by
  decide

/-- Claim C7 (amended): with no group the check returns true
unconditionally; with a group it returns true iff every participant's
step has the same float32 image as this rank's step (bit-equality of the
gathered float32 tensors) — distinct integers rounding to the same
float32 compare equal. -/
theorem claim_C7_all_equal :
    (∀ s : Nat, verify_all_rank_step_consistent none s = true) ∧
    (∀ (others : List Nat) (s : Nat),
      verify_all_rank_step_consistent (some others) s = true ↔
        ∀ t ∈ others, floatOfNat32 t = floatOfNat32 s) := by
  refine ⟨fun s => rfl, fun others s => ?_⟩
  simp [verify_all_rank_step_consistent]

/-- Witness for C7 at a concrete agreeing group. -/
theorem claim_C7_witness :
    verify_all_rank_step_consistent (some [5, 5]) 5 = true :=
  (claim_C7_all_equal.2 [5, 5] 5).mpr (by decide)

/-- Claim C5: the `SaverClassMeta` bootstrap descriptor is sent iff the
local rank is 0 and the restart count is 0; a restarted local-rank-0
process force-releases the shared lock instead; hence over restart
counts `0..n` the descriptor is sent exactly once, at first start. -/
theorem claim_C5_bootstrap_once :
    (∀ (lr rc : Nat) (dir : String) (ln gn : Nat),
      (notify_agent_to_create_saver lr rc dir ln gn).isSentMeta = true ↔
        (lr = 0 ∧ rc = 0)) ∧
    (∀ (rc : Nat) (dir : String) (ln gn : Nat), 0 < rc →
      notify_agent_to_create_saver 0 rc dir ln gn = NotifyAction.releasedLock) ∧
    (∀ (n : Nat) (dir : String) (ln gn : Nat),
      (List.range (n + 1)).countP
        (fun rc => (notify_agent_to_create_saver 0 rc dir ln gn).isSentMeta) = 1) := by
  refine ⟨?_, ?_, ?_⟩
  · intro lr rc dir ln gn
    by_cases hlr : lr = 0
    · by_cases hrc : rc = 0
      · subst hlr; subst hrc
        simp [notify_agent_to_create_saver, NotifyAction.isSentMeta]
      · have hpos : 0 < rc := Nat.pos_of_ne_zero hrc
        simp [notify_agent_to_create_saver, NotifyAction.isSentMeta, hlr, hpos, hrc]
    · simp [notify_agent_to_create_saver, NotifyAction.isSentMeta, hlr]
  · intro rc dir ln gn hrc
    simp [notify_agent_to_create_saver, hrc]
  · intro n dir ln gn
    induction n with
    | zero =>
        rw [show List.range 1 = [0] from rfl]
        simp [List.countP_cons, notify_agent_to_create_saver, NotifyAction.isSentMeta]
    | succ k ih =>
        rw [List.range_succ, List.countP_append, ih]
        simp [List.countP_cons, notify_agent_to_create_saver, NotifyAction.isSentMeta]

/-- Witness for C5 on a concrete restart. -/
theorem claim_C5_witness :
    notify_agent_to_create_saver 0 3 "ckpt" 8 64 = NotifyAction.releasedLock :=
  claim_C5_bootstrap_once.2.1 3 "ckpt" 8 64 (by decide)

/-- Claim C10: on a process with global rank 0, every engine
construction — at any restart count — puts the `UPDATE_SHARD` event
carrying the global shard count; but on a process with local rank 0 and
a non-zero global rank (any non-first node), the event queue was never
created and the construction fails instead of putting the event. -/
theorem claim_C10_update_shard :
    engineInitEvents 8 0 0 "ckpt" 8 64 =
      Except.error "AttributeError: NoneType object has no attribute put" ∧
    (∀ rc : Nat, ∃ evs : List InitEvent,
      engineInitEvents 0 0 rc "ckpt" 8 64 = Except.ok evs ∧
        InitEvent.putUpdateShard 64 ∈ evs) := by
  refine ⟨by rfl, fun rc => ?_⟩
  cases rc with
  | zero =>
      exact ⟨[InitEvent.sentClassMeta, InitEvent.putUpdateShard 64], by rfl, by decide⟩
  | succ k =>
      refine ⟨[InitEvent.releasedLock, InitEvent.putUpdateShard 64], ?_, by decide⟩
      simp [engineInitEvents, notify_agent_to_create_saver, update_saver_config]

/-- Claim C1: when the collective agreement check over this rank's
lock-acquisition result fails, the call abandons the write: it releases
the shared lock exactly when this rank had acquired it, writes nothing
to the staging region, leaves `_cached_step` unchanged and returns;
and whenever at least one participant of a group failed to acquire, the
check fails on every rank of that group, so no rank writes. -/
theorem claim_C1_abandon (st : EngineState) (g : Option (List Bool))
    (sd : StateDict) (conf : SingleFileCheckpointConfig)
    (hw : st.localRank = st.localShardId)
    (hk : sd.hasKey DLROVER_CKPT_CONFIG_KEY = false)
    (hfail : check_all_rank_ready g st.lockFree = false) :
    ((save_state_dict_to_memory st g sd conf).2.1 = SaveOutcome.abandoned ∧
     (save_state_dict_to_memory st g sd conf).1.shmHandler = st.shmHandler ∧
     (save_state_dict_to_memory st g sd conf).1.cachedStep = st.cachedStep ∧
     (save_state_dict_to_memory st g sd conf).1.lockFree = st.lockFree ∧
     (SaveEvent.releaseLock ∈ (save_state_dict_to_memory st g sd conf).2.2 ↔
       st.lockFree = true) ∧
     (∀ (step : Nat) (hold : Bool),
       SaveEvent.writeRegion step hold ∉ (save_state_dict_to_memory st g sd conf).2.2)) ∧
    (∀ (others : List Bool) (acq : Bool), (acq = false ∨ false ∈ others) →
      check_all_rank_ready (some others) acq = false) := by
  constructor
  · cases hlf : st.lockFree <;>
      simp [save_state_dict_to_memory, hw, hk, hlf, hlf ▸ hfail]
  · intro others acq h
    rw [← Bool.not_eq_true, check_all_rank_ready_some_iff]
    rcases h with h | h
    · simp [h]
    · intro hc
      have := hc.2 false h
      exact Bool.false_ne_true this

/-- Witness for C1: a rank whose own acquisition failed abandons and
leaves the cached step unchanged. -/
theorem claim_C1_witness :
    (save_state_dict_to_memory ⟨0, 0, 0, false, false, ⟨none⟩, 7, true⟩
        (some [true]) [("w", 1)] ⟨9, ""⟩).1.cachedStep = 7 :=
  (claim_C1_abandon ⟨0, 0, 0, false, false, ⟨none⟩, 7, true⟩ (some [true])
    [("w", 1)] ⟨9, ""⟩ (by decide) (by decide) (by decide)).1.2.2.1

/-- Claim C2, counterexample: in single-process mode (no saver group,
distributed backend uninitialized) the agreement check passes and the
write succeeds, yet no collective barrier is executed — the barrier step
of the claim is conditional on `dist.is_initialized()`. -/
theorem claim_C2_counterexample :
    check_all_rank_ready none
        (EngineState.lockFree ⟨0, 0, 0, true, false, ⟨none⟩, 0, false⟩) = true ∧
    (save_state_dict_to_memory ⟨0, 0, 0, true, false, ⟨none⟩, 0, false⟩
        none [("w", 1)] ⟨5, ""⟩).2.1 = SaveOutcome.written ∧
    SaveEvent.barrier ∉
      (save_state_dict_to_memory ⟨0, 0, 0, true, false, ⟨none⟩, 0, false⟩
        none [("w", 1)] ⟨5, ""⟩).2.2 := by
  decide

/-- Claim C2 (amended): when the agreement check passes the engine, in
this order, writes the config plus state into the staging region while
still holding the lock it acquired (the write event records the lock as
held), releases the lock, records the step as `_cached_step`, and then —
if the distributed backend is initialized — executes the collective
barrier over the saver group. -/
theorem claim_C2_success (st : EngineState) (g : Option (List Bool))
    (sd : StateDict) (conf : SingleFileCheckpointConfig)
    (hw : st.localRank = st.localShardId)
    (hk : sd.hasKey DLROVER_CKPT_CONFIG_KEY = false)
    (hok : check_all_rank_ready g st.lockFree = true) :
    (save_state_dict_to_memory st g sd conf).2.1 = SaveOutcome.written ∧
    (save_state_dict_to_memory st g sd conf).2.2 =
      [SaveEvent.tryAcquire true, SaveEvent.writeRegion conf.step true,
        SaveEvent.releaseLock] ++
        (if st.distInit then [SaveEvent.barrier] else []) ∧
    (save_state_dict_to_memory st g sd conf).1.shmHandler =
      st.shmHandler.save_state_dict sd conf ∧
    (save_state_dict_to_memory st g sd conf).1.cachedStep = conf.step ∧
    (save_state_dict_to_memory st g sd conf).1.lockFree = true ∧
    (save_state_dict_to_memory st g sd conf).1.heldBySelf = false := by
  have hlf : st.lockFree = true := by
    cases hlf : st.lockFree
    · rw [hlf, check_all_rank_ready_false] at hok
      exact absurd hok Bool.false_ne_true
    · rfl
  simp [save_state_dict_to_memory, hw, hk, hlf, hlf ▸ hok,
    SharedMemoryHandler.save_state_dict]

/-- Witness for C2 on a concrete successful save with the barrier. -/
theorem claim_C2_witness :
    (save_state_dict_to_memory ⟨0, 0, 0, true, false, ⟨none⟩, 0, true⟩
        (some [true]) [("w", 1)] ⟨5, ""⟩).2.2 =
      [SaveEvent.tryAcquire true, SaveEvent.writeRegion 5 true,
        SaveEvent.releaseLock, SaveEvent.barrier] :=
  (claim_C2_success ⟨0, 0, 0, true, false, ⟨none⟩, 0, true⟩ (some [true])
    [("w", 1)] ⟨5, ""⟩ (by decide) (by decide) (by decide)).2.1

/-- Claim C6, counterexample: two consecutive saves through
`save_to_memory`, the first with step 5 and the second with step 0, both
succeed; the staging region's stored step goes from 5 down to 0 — the
lower step is neither rejected nor treated as a regression. -/
theorem claim_C6_counterexample :
    ((save_to_memory ⟨0, 0, 0, true, false, ⟨none⟩, 0, false⟩
        none 5 [("w", 1)] "").2.1 = SaveOutcome.written ∧
      ((save_to_memory ⟨0, 0, 0, true, false, ⟨none⟩, 0, false⟩
        none 5 [("w", 1)] "").1.shmHandler.get_checkpoint_config ⟨0, ""⟩).step = 5) ∧
    ((save_to_memory (save_to_memory ⟨0, 0, 0, true, false, ⟨none⟩, 0, false⟩
        none 5 [("w", 1)] "").1 none 0 [("w", 1)] "").2.1 = SaveOutcome.written ∧
      ((save_to_memory (save_to_memory ⟨0, 0, 0, true, false, ⟨none⟩, 0, false⟩
        none 5 [("w", 1)] "").1 none 0 [("w", 1)] "").1.shmHandler.get_checkpoint_config
          ⟨0, ""⟩).step = 0) := by
  decide

/-- Claim C6 (amended): the engine does not enforce step monotonicity —
every successful save stores its own config and state into the staging
region and records its own step as `_cached_step`, with no comparison
against the previously cached step. -/
theorem claim_C6_last_writer (st : EngineState) (g : Option (List Bool))
    (sd : StateDict) (conf : SingleFileCheckpointConfig)
    (hw : st.localRank = st.localShardId)
    (hk : sd.hasKey DLROVER_CKPT_CONFIG_KEY = false)
    (hok : check_all_rank_ready g st.lockFree = true) :
    (save_state_dict_to_memory st g sd conf).1.shmHandler.region = some (conf, sd) ∧
    (save_state_dict_to_memory st g sd conf).1.cachedStep = conf.step := by
  have hlf : st.lockFree = true := by
    cases hlf : st.lockFree
    · rw [hlf, check_all_rank_ready_false] at hok
      exact absurd hok Bool.false_ne_true
    · rfl
  simp [save_state_dict_to_memory, hw, hk, hlf, hlf ▸ hok,
    SharedMemoryHandler.save_state_dict]

/-- Witness for C6: a successful save with step 0 after a cached step 5
still stores step 0. -/
theorem claim_C6_witness :
    (save_state_dict_to_memory ⟨0, 0, 0, true, false, ⟨none⟩, 5, false⟩
        none [("w", 1)] ⟨0, ""⟩).1.cachedStep = 0 :=
  (claim_C6_last_writer ⟨0, 0, 0, true, false, ⟨none⟩, 5, false⟩ none
    [("w", 1)] ⟨0, ""⟩ (by decide) (by decide) (by decide)).2

/-- Claim C8: for the shard's designated writer, the call fails with the
`ValueError` (`invalidState`) iff the caller's state dict carries the
reserved metadata key; and when it fails it does so before any lock or
memory operation — the full engine state is unchanged and the event
trace is empty. -/
theorem claim_C8_invalid_state (st : EngineState) (g : Option (List Bool))
    (sd : StateDict) (conf : SingleFileCheckpointConfig)
    (hw : st.localRank = st.localShardId) :
    ((save_state_dict_to_memory st g sd conf).2.1 = SaveOutcome.invalidState ↔
      sd.hasKey DLROVER_CKPT_CONFIG_KEY = true) ∧
    (sd.hasKey DLROVER_CKPT_CONFIG_KEY = true →
      save_state_dict_to_memory st g sd conf = (st, SaveOutcome.invalidState, [])) := by
  cases hkey : sd.hasKey DLROVER_CKPT_CONFIG_KEY with
  | true => simp [save_state_dict_to_memory, hw, hkey]
  | false =>
      refine ⟨?_, by simp⟩
      cases hready : check_all_rank_ready g st.lockFree <;>
        cases hlf : st.lockFree <;>
          simp [save_state_dict_to_memory, hw, hkey, hlf, hlf ▸ hready]

/-- Witness for C8: a writer passing a state dict carrying the reserved
key gets the error with nothing changed. -/
theorem claim_C8_witness :
    save_state_dict_to_memory ⟨0, 0, 0, true, false, ⟨none⟩, 0, true⟩
        none [(DLROVER_CKPT_CONFIG_KEY, 0)] ⟨3, ""⟩ =
      (⟨0, 0, 0, true, false, ⟨none⟩, 0, true⟩, SaveOutcome.invalidState, []) :=
  (claim_C8_invalid_state ⟨0, 0, 0, true, false, ⟨none⟩, 0, true⟩ none
    [(DLROVER_CKPT_CONFIG_KEY, 0)] ⟨3, ""⟩ (by decide)).2 (by decide)

/-- Claim C9: a process that is not the shard's designated writer
returns immediately with no effect: state unchanged, empty event trace
(no lock operation, collective call, write or barrier), and no error
even when the state dict carries the reserved key. -/
theorem claim_C9_not_writer (st : EngineState) (g : Option (List Bool))
    (sd : StateDict) (conf : SingleFileCheckpointConfig)
    (hnw : st.localRank ≠ st.localShardId) :
    save_state_dict_to_memory st g sd conf = (st, SaveOutcome.skippedNotWriter, []) := by
  simp [save_state_dict_to_memory, hnw]

/-- Witness for C9: a non-writer rank whose state dict even carries the
reserved key still returns untouched and unraised. -/
theorem claim_C9_witness :
    save_state_dict_to_memory ⟨1, 1, 0, true, false, ⟨none⟩, 0, true⟩
        none [(DLROVER_CKPT_CONFIG_KEY, 0)] ⟨3, ""⟩ =
      (⟨1, 1, 0, true, false, ⟨none⟩, 0, true⟩, SaveOutcome.skippedNotWriter, []) :=
  claim_C9_not_writer ⟨1, 1, 0, true, false, ⟨none⟩, 0, true⟩ none
    [(DLROVER_CKPT_CONFIG_KEY, 0)] ⟨3, ""⟩ (by decide)

/-- Claim C4: `get_state_dict_from_memory` returns empty when the staged
header step is 0, returns empty when the cross-rank step-consistency
check fails, returns the loaded payload otherwise, and in particular
never returns a non-empty state dict when the consistency check is
false. -/
theorem claim_C4_load (st : EngineState) (g : Option (List Nat)) :
    ((st.shmHandler.get_checkpoint_config ⟨0, ""⟩).step = 0 →
      get_state_dict_from_memory st g = []) ∧
    (verify_all_rank_step_consistent g
        (st.shmHandler.get_checkpoint_config ⟨0, ""⟩).step = false →
      get_state_dict_from_memory st g = []) ∧
    ((st.shmHandler.get_checkpoint_config ⟨0, ""⟩).step ≠ 0 →
      verify_all_rank_step_consistent g
        (st.shmHandler.get_checkpoint_config ⟨0, ""⟩).step = true →
      get_state_dict_from_memory st g = st.shmHandler.load_state_dict) ∧
    (get_state_dict_from_memory st g ≠ [] →
      verify_all_rank_step_consistent g
        (st.shmHandler.get_checkpoint_config ⟨0, ""⟩).step = true) := by
  refine ⟨?_, ?_, ?_, ?_⟩
  · intro h0
    simp [get_state_dict_from_memory, h0]
  · intro hv
    by_cases h0 : (st.shmHandler.get_checkpoint_config ⟨0, ""⟩).step = 0
    · simp [get_state_dict_from_memory, h0]
    · simp [get_state_dict_from_memory, h0, hv]
  · intro h0 hv
    simp [get_state_dict_from_memory, h0, hv]
  · intro hne
    by_cases h0 : (st.shmHandler.get_checkpoint_config ⟨0, ""⟩).step = 0
    · exact absurd (by simp [get_state_dict_from_memory, h0]) hne
    · cases hv : verify_all_rank_step_consistent g
          (st.shmHandler.get_checkpoint_config ⟨0, ""⟩).step
      · exact absurd (by simp [get_state_dict_from_memory, h0, hv]) hne
      · rfl

/-- Witness for C4: ranks reporting steps 5 and 7 make the load return
empty despite a staged payload. -/
theorem claim_C4_witness :
    get_state_dict_from_memory
        ⟨0, 0, 0, true, false, ⟨some (⟨5, "p"⟩, [("w", 1)])⟩, 5, true⟩
        (some [7]) = [] :=
  (claim_C4_load ⟨0, 0, 0, true, false, ⟨some (⟨5, "p"⟩, [("w", 1)])⟩, 5, true⟩
    (some [7])).2.1 (by decide)

end FlashCkpt
